import Mathlib

/-!
# CHROMA color-matching game: verification of the scoring/round engine

Shallow embedding of the CHROMA repository (a browser color-matching game).
The authoritative variant is `src/unnamed/part_000` (the superset variant with
configurable threshold, history and strict mode); `src/src/App.tsx` is the
minimal variant of the same code.

Numbers are modelled exactly: JS numbers holding small integers become `ℤ`/`ℕ`,
the configurable threshold becomes `ℚ`, and the one genuinely real-valued
computation (the Euclidean similarity of `calculateStats`) becomes an exact `ℝ`
value; an executable rational test `succeeds` is proved equivalent to the
real-valued comparison the source performs.  Strings are modelled as their
character lists; JS `parseInt` prefix semantics are modelled faithfully for
the ASCII inputs the game manipulates.
-/

namespace Chroma

/-! ## JS string primitives used by the source -/

/-- JS whitespace test on character codes (space, tab, LF, CR, VT, FF, NBSP);
this is the set relevant to the ASCII strings the game manipulates. -/
def jsIsWhitespace (c : Char) : Bool :=
  c.toNat = 32 || c.toNat = 9 || c.toNat = 10 || c.toNat = 13 ||
  c.toNat = 11 || c.toNat = 12 || c.toNat = 160

/-- Value of a hexadecimal digit character (`0-9`, `a-f`, `A-F`), by code. -/
def hexDigitVal (c : Char) : Option ℕ :=
  let n := c.toNat
  if 48 ≤ n ∧ n ≤ 57 then some (n - 48)
  else if 97 ≤ n ∧ n ≤ 102 then some (n - 97 + 10)
  else if 65 ≤ n ∧ n ≤ 70 then some (n - 65 + 10)
  else none

/-- Value of a decimal digit character (`0-9`), by code. -/
def decDigitVal (c : Char) : Option ℕ :=
  let n := c.toNat
  if 48 ≤ n ∧ n ≤ 57 then some (n - 48) else none

/-- Optional sign at the head of a numeric literal, as JS `parseInt` reads it:
returns (isNegative, rest). -/
def parseSign : List Char → Bool × List Char
  | [] => (false, [])
  | c :: r =>
    if c = '-' then (true, r)
    else if c = '+' then (false, r)
    else (false, c :: r)

/-- JS `parseInt` with radix 16 also skips a leading `0x`/`0X` prefix. -/
def strip0x : List Char → List Char
  | [] => []
  | [c] => [c]
  | c0 :: c1 :: r =>
    if c0 = '0' ∧ (c1 = 'x' ∨ c1 = 'X') then r else c0 :: c1 :: r

/-- Accumulated value of a digit run in the given radix. -/
def digitsVal (radix : ℕ) (f : Char → Option ℕ) (l : List Char) : ℕ :=
  l.foldl (fun a c => radix * a + ((f c).getD 0)) 0

/-- JS `parseInt(s, 16)` on a character list: skip leading whitespace, read an
optional sign and an optional `0x` prefix, then take the longest run of hex
digits; `none` models `NaN` (no digits). -/
def jsParseIntHexL (l : List Char) : Option ℤ :=
  let l1 := l.dropWhile jsIsWhitespace
  let p := parseSign l1
  let ds := (strip0x p.2).takeWhile fun c => (hexDigitVal c).isSome
  if ds = [] then none
  else some ((if p.1 then (-1 : ℤ) else 1) * (digitsVal 16 hexDigitVal ds : ℕ))

/-- JS `parseInt(s, 10)` on a character list; `none` models `NaN`. -/
def jsParseInt10L (l : List Char) : Option ℤ :=
  let l1 := l.dropWhile jsIsWhitespace
  let p := parseSign l1
  let ds := p.2.takeWhile fun c => (decDigitVal c).isSome
  if ds = [] then none
  else some ((if p.1 then (-1 : ℤ) else 1) * (digitsVal 10 decDigitVal ds : ℕ))

/-- JS `parseInt(s, 10)` on a string. -/
def jsParseInt10 (s : String) : Option ℤ := jsParseInt10L s.data

/-- JS `String.prototype.trim` (on the ASCII fragment). -/
def jsTrimL (l : List Char) : List Char :=
  ((l.dropWhile jsIsWhitespace).reverse.dropWhile jsIsWhitespace).reverse

/-- The JS replace of `#` by the empty string: removes only the FIRST occurrence. -/
def removeFirstHash : List Char → List Char
  | [] => []
  | c :: cs => if c = '#' then cs else c :: removeFirstHash cs

/-- JS `s.substring(a, b)` as a character-list slice. -/
def listSub (l : List Char) (a b : ℕ) : List Char := (l.drop a).take (b - a)

/-! ## ColorMath -/

/-- A color as the source holds it: three JS numbers `r`, `g`, `b`.  The
source never constrains the fields itself (the UI does), so they are plain
integers. -/
structure Color where
  r : ℤ
  g : ℤ
  b : ℤ
deriving DecidableEq

/-- The cleaning step of `hexToRgb`: drop the first `#`, then trim. -/
def cleanHexOf (l : List Char) : List Char := jsTrimL (removeFirstHash l)

/-- Source function `hexToRgb`: clean the input by removing the first `#` and
trimming, then parse either exactly 6 characters as three 2-character
channels or exactly 3 characters as three duplicated-digit channels, each via
radix-16 `parseInt`; `none` models the null return of the source. -/
def hexToRgbL (l : List Char) : Option Color :=
  let clean := cleanHexOf l
  if clean.length = 6 then
    -- the `!isNaN(r) && !isNaN(g) && !isNaN(b)` guard, as an Option chain
    (jsParseIntHexL (listSub clean 0 2)).bind fun r =>
    (jsParseIntHexL (listSub clean 2 4)).bind fun g =>
    (jsParseIntHexL (listSub clean 4 6)).map fun b => ⟨r, g, b⟩
  else if clean.length = 3 then
    -- cleanHex[0], cleanHex[1], cleanHex[2]; the getD default is unreachable
    (jsParseIntHexL [clean.getD 0 ' ', clean.getD 0 ' ']).bind fun r =>
    (jsParseIntHexL [clean.getD 1 ' ', clean.getD 1 ' ']).bind fun g =>
    (jsParseIntHexL [clean.getD 2 ' ', clean.getD 2 ' ']).map fun b => ⟨r, g, b⟩
  else none

/-- `hexToRgb` on strings. -/
def hexToRgb (s : String) : Option Color := hexToRgbL s.data

/-- Lowercase hexadecimal digit character for a value below 16, as JS
`Number.prototype.toString(16)` produces. -/
def hexDigitChar (n : ℕ) : Char := Char.ofNat (if n < 10 then 48 + n else 87 + n)

/-- Base-16 digit expansion (most significant first); fuel-structured so that
it evaluates by kernel reduction. -/
def natToHexAux : ℕ → ℕ → List Char
  | 0, _ => []
  | fuel + 1, n =>
    if n < 16 then [hexDigitChar n]
    else natToHexAux fuel (n / 16) ++ [hexDigitChar (n % 16)]

/-- JS `n.toString(16)` for a nonnegative integer value. -/
def natToHexL (n : ℕ) : List Char := natToHexAux (n + 1) n

/-- JS `x.toString(16)` for an integer value (negative values render as a
minus sign followed by the magnitude). -/
def intToHexL (x : ℤ) : List Char :=
  if x < 0 then '-' :: natToHexL x.natAbs else natToHexL x.toNat

/-- The padding step of the source: a single digit gets a leading zero. -/
def pad2 (l : List Char) : List Char := if l.length = 1 then '0' :: l else l

/-- JS `toUpperCase` on the ASCII fragment. -/
def jsUpperChar (c : Char) : Char :=
  let n := c.toNat
  if 97 ≤ n ∧ n ≤ 122 then Char.ofNat (n - 32) else c

/-- The two uppercase characters one channel contributes to `rgbToHex`. -/
def chanChars (x : ℤ) : List Char := (pad2 (intToHexL x)).map jsUpperChar

/-- Source function `rgbToHex`: a `#`, then the three channels rendered in
base 16, each zero-padded to two digits, joined and uppercased. -/
def rgbToHexL (r g b : ℤ) : List Char :=
  '#' :: ((pad2 (intToHexL r) ++ pad2 (intToHexL g) ++ pad2 (intToHexL b)).map jsUpperChar)

/-- `rgbToHex` as a string. -/
def rgbToHex (r g b : ℤ) : String := ⟨rgbToHexL r g b⟩

/-- Squared Euclidean distance between two colors (the radicand of `dist` in
`calculateStats`). -/
def dist2 (t u : Color) : ℤ :=
  (t.r - u.r) * (t.r - u.r) + (t.g - u.g) * (t.g - u.g) + (t.b - u.b) * (t.b - u.b)

/-- The similarity of `calculateStats`, exactly as the source computes it:
the maximum of 0 and `1 - dist / maxDist`, with `dist` the Euclidean distance
and `maxDist` the distance between black and white. -/
noncomputable def similarity (t u : Color) : ℝ :=
  max 0 (1 - Real.sqrt ((dist2 t u : ℤ) : ℝ) / Real.sqrt ((255 : ℝ) ^ 2 + 255 ^ 2 + 255 ^ 2))

/-- Executable form of the source's success test
`similarity > scoreThreshold / 100`, obtained by clearing the square roots;
`succeeds_iff_similarity` proves it equivalent to the real-valued comparison. -/
def succeeds (threshold : ℚ) (t u : Color) : Bool :=
  decide (0 < 100 - threshold) &&
  decide (10000 * ((dist2 t u : ℤ) : ℚ) < 195075 * ((100 - threshold) * (100 - threshold)))

/-! ## Game session state (the `App` component of `part_000`)

React state evolves by discrete events (clicks, keystrokes, the 1-second
interval tick, the delayed round reset, window blur).  An event handler runs
and commits its `setState` calls, then the `useEffect` hooks whose
dependencies changed run.  `step` models one such event: the handler followed
by the three state-changing effects (high-score commit, hex-mirror sync,
timer expiry), each guarded by whether its dependency list changed — for the
object-valued dependency `userColor` React compares object identity, so that
effect runs exactly when the handler called `setUserColor`. -/

/-- The game phase: `MENU`, `PLAYING` or `GAME_OVER`. -/
inductive GameState where
  | MENU
  | PLAYING
  | GAME_OVER
deriving DecidableEq

/-- The component state of `App` in `part_000` (render-only state such as the
settings modal visibility is omitted; `lastShown` records only whether
`lastScore` is non-null, the displayed percentage text being render-only). -/
structure GState where
  gameState : GameState
  score : ℤ
  highScore : ℤ
  strictMode : Bool
  blindMode : Bool
  scoreThreshold : ℚ
  timerDuration : ℤ
  timeLeft : ℤ
  targetColor : Color
  userColor : Color
  hexInputValue : String
  isEditingHex : Bool
  isResetting : Bool
  history : List (Color × Color)
  hasLostFocus : Bool
  lastShown : Bool
deriving DecidableEq

/-- A color channel name: `r`, `g` or `b`. -/
inductive Channel where
  | r
  | g
  | b
deriving DecidableEq

/-- The slider handler body: spread the previous color, overwrite one channel. -/
def setChannel (c : Color) (ch : Channel) (v : ℤ) : Color :=
  match ch with
  | .r => { c with r := v }
  | .g => { c with g := v }
  | .b => { c with b := v }

/-- The discrete events that drive the component.  `start` and `roundReset`
carry the color `generateRandomColor()` returns; `setTimer` carries the
result of `parseInt(e.target.value)` (`none` = NaN). -/
inductive Event where
  | start (target : Color)
  | submit
  | roundReset (target : Color)
  | tick
  | blurWindow
  | sliderChange (ch : Channel) (v : ℤ)
  | hexChange (val : String)
  | hexFocus
  | hexBlur
  | endGame
  | setStrict (b : Bool)
  | setBlind (b : Bool)
  | setTimer (v : Option ℤ)
deriving DecidableEq

/-- `startNewRound`: flag the one-shot sync suppression, draw the new target,
reset the user color to black, reset the mirror to `#`, clear the outcome. -/
def startNewRound (s : GState) (c : Color) : GState :=
  { s with isResetting := true, targetColor := c, userColor := ⟨0, 0, 0⟩,
           hexInputValue := "#", lastShown := false }

/-- The event handlers of `part_000`, one state-to-state function. -/
def handle (s : GState) (e : Event) : GState :=
  match e with
  | .start c =>
    startNewRound { s with score := 0, history := [], hasLostFocus := false,
                           timeLeft := s.timerDuration, gameState := .PLAYING } c
  | .submit =>
    if s.gameState ≠ .PLAYING then s
    else
      let s1 := { s with history := s.history ++ [(s.targetColor, s.userColor)] }
      if succeeds s.scoreThreshold s.targetColor s.userColor then
        { s1 with score := s1.score + 1, lastShown := true, timeLeft := s.timerDuration }
      else
        { s1 with lastShown := true }
  | .roundReset c => startNewRound s c
  | .tick =>
    -- the interval callback; the interval exists only under this guard
    if s.gameState = .PLAYING ∧ 0 < s.timeLeft ∧ 0 < s.timerDuration then
      if s.timeLeft ≤ 0 then { s with gameState := .GAME_OVER, timeLeft := 0 }
      else { s with timeLeft := s.timeLeft - 1 }
    else s
  | .blurWindow =>
    if s.gameState = .PLAYING then { s with hasLostFocus := true } else s
  | .sliderChange ch v => { s with userColor := setChannel s.userColor ch v }
  | .hexChange val =>
    let s1 := { s with hexInputValue := val }
    match hexToRgb val with
    | some c => { s1 with userColor := c }
    | none => s1
  | .hexFocus => { s with isEditingHex := true }
  | .hexBlur => { s with isEditingHex := false }
  | .endGame =>
    if s.gameState = .PLAYING then { s with gameState := .GAME_OVER } else s
  | .setStrict b => { s with strictMode := b }
  | .setBlind b => { s with blindMode := b }
  | .setTimer v =>
    let val := max 0 (v.getD 0)
    let s1 := { s with timerDuration := val }
    if s.gameState ≠ .PLAYING then { s1 with timeLeft := val }
    else if 0 < val ∧ s.timeLeft = 0 then { s1 with timeLeft := val }
    else s1

/-- The high-score effect body:
`if (score > highScore && (!hasLostFocus || !strictMode)) setHighScore(score)`. -/
def highScoreFx (s : GState) : GState :=
  { s with highScore :=
      if s.highScore < s.score ∧ (s.hasLostFocus = false ∨ s.strictMode = false)
      then s.score else s.highScore }

/-- The hex-mirror sync effect body: consume the one-shot suppression flag,
otherwise re-derive the mirror from `userColor` when not editing. -/
def hexSyncFx (s : GState) : GState :=
  if s.isResetting then { s with isResetting := false }
  else if s.isEditingHex = false then
    { s with hexInputValue := rgbToHex s.userColor.r s.userColor.g s.userColor.b }
  else s

/-- The timer effect's immediate transition: with the interval-setup branch
unavailable (`timeLeft ≤ 0`), a running game with a positive configured
duration is ended. -/
def timerFx (s : GState) : GState :=
  { s with gameState :=
      if s.timeLeft ≤ 0 ∧ s.gameState = .PLAYING ∧ 0 < s.timerDuration
      then .GAME_OVER else s.gameState }

/-- Does the handler for this event call `setUserColor` (always with a fresh
object)?  This is what makes the `[userColor, isEditingHex]` dependency of
the sync effect change under the object-identity comparison React uses. -/
def callsSetUserColor : Event → Bool
  | .start _ => true
  | .roundReset _ => true
  | .sliderChange _ _ => true
  | .hexChange val => (hexToRgb val).isSome
  | _ => false

/-- One event: run the handler, then each effect whose dependency list
changed (re-running an effect whose own write re-triggers it is a no-op, so
one application per effect reaches the fixpoint React settles in). -/
def step (s : GState) (e : Event) : GState :=
  let s1 := handle s e
  let s2 :=
    if s1.score ≠ s.score ∨ s1.highScore ≠ s.highScore ∨
        s1.hasLostFocus ≠ s.hasLostFocus ∨ s1.strictMode ≠ s.strictMode
    then highScoreFx s1 else s1
  let s3 :=
    if callsSetUserColor e = true ∨ s2.isEditingHex ≠ s.isEditingHex
    then hexSyncFx s2 else s2
  if s3.gameState ≠ s.gameState ∨ s3.timeLeft ≠ s.timeLeft ∨
      s3.timerDuration ≠ s.timerDuration
  then timerFx s3 else s3

/-- A list of events in arrival order. -/
def runEvents (s : GState) (es : List Event) : GState :=
  es.foldl step s

/-- The state as first rendered: `useState` initializers (`h0`, `dur`, `θ`,
`strict`, `blind` are the values loaded from storage), before the mount
effects run. -/
def rawInit (h0 dur : ℤ) (θ : ℚ) (strict blind : Bool) : GState :=
  { gameState := .MENU, score := 0, highScore := h0, strictMode := strict,
    blindMode := blind, scoreThreshold := θ, timerDuration := dur,
    timeLeft := dur, targetColor := ⟨0, 0, 0⟩, userColor := ⟨0, 0, 0⟩,
    hexInputValue := "#", isEditingHex := false, isResetting := true,
    history := [], hasLostFocus := false, lastShown := false }

/-- The initial state after mount: on mount every effect runs once, in
declaration order. -/
def initState (h0 dur : ℤ) (θ : ℚ) (strict blind : Bool) : GState :=
  timerFx (hexSyncFx (highScoreFx (rawInit h0 dur θ strict blind)))

/-- States reachable through the UI.  The side conditions record how the DOM
can deliver each event: the submit button dispatches `start` outside PLAYING
and `submit` inside it, the interval only exists while
`PLAYING ∧ timeLeft > 0 ∧ timerDuration > 0`, sliders are range inputs
clamped to `[0, 255]` and disabled outside PLAYING, and the hex field only
fires `onChange` while focused (hence while `isEditingHex`) and enabled. -/
inductive Reachable (h0 dur : ℤ) (θ : ℚ) (strict blind : Bool) : GState → Prop where
  | init : Reachable h0 dur θ strict blind (initState h0 dur θ strict blind)
  | start {s c} : Reachable h0 dur θ strict blind s → s.gameState ≠ .PLAYING →
      Reachable h0 dur θ strict blind (step s (.start c))
  | submit {s} : Reachable h0 dur θ strict blind s → s.gameState = .PLAYING →
      Reachable h0 dur θ strict blind (step s .submit)
  | roundReset {s c} : Reachable h0 dur θ strict blind s →
      Reachable h0 dur θ strict blind (step s (.roundReset c))
  | tick {s} : Reachable h0 dur θ strict blind s → s.gameState = .PLAYING →
      0 < s.timeLeft → 0 < s.timerDuration →
      Reachable h0 dur θ strict blind (step s .tick)
  | blurWindow {s} : Reachable h0 dur θ strict blind s →
      Reachable h0 dur θ strict blind (step s .blurWindow)
  | sliderChange {s ch v} : Reachable h0 dur θ strict blind s →
      s.gameState = .PLAYING → 0 ≤ v → v ≤ 255 →
      Reachable h0 dur θ strict blind (step s (.sliderChange ch v))
  | hexChange {s val} : Reachable h0 dur θ strict blind s →
      s.gameState = .PLAYING → s.isEditingHex = true →
      Reachable h0 dur θ strict blind (step s (.hexChange val))
  | hexFocus {s} : Reachable h0 dur θ strict blind s →
      Reachable h0 dur θ strict blind (step s .hexFocus)
  | hexBlur {s} : Reachable h0 dur θ strict blind s →
      Reachable h0 dur θ strict blind (step s .hexBlur)
  | endGame {s} : Reachable h0 dur θ strict blind s → s.gameState = .PLAYING →
      Reachable h0 dur θ strict blind (step s .endGame)
  | setStrict {s b} : Reachable h0 dur θ strict blind s →
      Reachable h0 dur θ strict blind (step s (.setStrict b))
  | setBlind {s b} : Reachable h0 dur θ strict blind s →
      Reachable h0 dur θ strict blind (step s (.setBlind b))
  | setTimer {s v} : Reachable h0 dur θ strict blind s →
      Reachable h0 dur θ strict blind (step s (.setTimer v))

/-! ## Persistence initializers (`useState` with `localStorage`) -/

/-- JS or-default for a nullable string: `null` and the empty string are falsy. -/
def jsOr (o : Option String) (d : String) : String :=
  match o with
  | none => d
  | some s => if s = "" then d else s

/-- The `highScore` initializer: radix-10 `parseInt` of the stored
`chroma_high_score` value, with the string 0 substituted when the key is
absent — note the absence of an `isNaN` guard; `none` models `NaN`. -/
def highScoreInit (stored : Option String) : Option ℤ :=
  jsParseInt10 (jsOr stored "0")

/-- The `timerDuration` initializer: radix-10 `parseInt` of the stored value
with default 30, guarded by an `isNaN` fallback to 30. -/
def timerDurationInit (stored : Option String) : ℤ :=
  match jsParseInt10 (jsOr stored "30") with
  | none => 30
  | some v => v

/-! ## The similarity test: executable form vs. the source's real comparison -/

lemma dist2_nonneg (t u : Color) : 0 ≤ dist2 t u := by
  unfold dist2
  have h1 := mul_self_nonneg (t.r - u.r)
  have h2 := mul_self_nonneg (t.g - u.g)
  have h3 := mul_self_nonneg (t.b - u.b)
  linarith

/-- The executable success test agrees with the comparison
`similarity > scoreThreshold / 100` the source performs (for any nonnegative
threshold, in particular the configurable range [50, 99.9]). -/
lemma succeeds_iff_similarity (θ : ℚ) (t u : Color) (hθ : 0 ≤ θ) :
    succeeds θ t u = true ↔ (θ : ℝ) / 100 < similarity t u := by
  have hd : (0:ℝ) ≤ ((dist2 t u : ℤ) : ℝ) := by exact_mod_cast dist2_nonneg t u
  have hM2 : ((255:ℝ) ^ 2 + 255 ^ 2 + 255 ^ 2) = 195075 := by norm_num
  have hθR : (0:ℝ) ≤ (θ : ℝ) := by exact_mod_cast hθ
  have hMpos : (0:ℝ) < Real.sqrt 195075 := Real.sqrt_pos.mpr (by norm_num)
  have hdnn : (0:ℝ) ≤ Real.sqrt ((dist2 t u : ℤ) : ℝ) / Real.sqrt 195075 :=
    div_nonneg (Real.sqrt_nonneg _) (Real.sqrt_nonneg _)
  unfold succeeds similarity
  rw [Bool.and_eq_true, decide_eq_true_eq, decide_eq_true_eq, lt_max_iff,
    or_iff_right (not_lt.mpr (by positivity)), hM2]
  by_cases hc : (100:ℚ) ≤ θ
  · have h1 : ¬ ((0:ℚ) < 100 - θ) := by linarith
    have hcR : (100:ℝ) ≤ (θ:ℝ) := by exact_mod_cast hc
    have h2 : ¬ ((θ:ℝ) / 100 < 1 - Real.sqrt ((dist2 t u : ℤ) : ℝ) / Real.sqrt 195075) := by
      intro h
      have : (1:ℝ) ≤ (θ:ℝ) / 100 := by linarith
      linarith
    constructor
    · intro h; exact absurd h.1 h1
    · intro h; exact absurd h h2
  · push_neg at hc
    have hcR : (θ:ℝ) < 100 := by exact_mod_cast hc
    rw [and_iff_right (by linarith : (0:ℚ) < 100 - θ)]
    have step1 : ((θ:ℝ) / 100 < 1 - Real.sqrt ((dist2 t u : ℤ) : ℝ) / Real.sqrt 195075)
        ↔ Real.sqrt ((dist2 t u : ℤ) : ℝ) / Real.sqrt 195075 < 1 - (θ:ℝ) / 100 := by
      constructor <;> intro h <;> linarith
    have hypos : (0:ℝ) < (1 - (θ:ℝ) / 100) * Real.sqrt 195075 :=
      mul_pos (by linarith) hMpos
    rw [step1, div_lt_iff₀ hMpos, Real.sqrt_lt' hypos]
    have hsq : ((1 - (θ:ℝ) / 100) * Real.sqrt 195075) ^ 2
        = (1 - (θ:ℝ) / 100) ^ 2 * 195075 := by
      rw [mul_pow, Real.sq_sqrt (by norm_num : (0:ℝ) ≤ 195075)]
    rw [hsq]
    have key : (1 - (θ:ℝ) / 100) ^ 2 * 195075
        = 195075 * ((100 - (θ:ℝ)) * (100 - (θ:ℝ))) / 10000 := by ring
    rw [key]
    constructor
    · intro h
      have hR : (10000:ℝ) * ((dist2 t u : ℤ) : ℝ)
          < 195075 * ((100 - (θ:ℝ)) * (100 - (θ:ℝ))) := by exact_mod_cast h
      linarith
    · intro h
      have hR : (10000:ℝ) * ((dist2 t u : ℤ) : ℝ)
          < 195075 * ((100 - (θ:ℝ)) * (100 - (θ:ℝ))) := by linarith
      exact_mod_cast hR


/-! ## Hex round-trip: `rgbToHex` then `hexToRgb` -/

def goodChanChar (c : Char) : Bool := !(jsIsWhitespace c) && !(c == '#')

def isUpperHexDigit (c : Char) : Bool :=
  (48 ≤ c.toNat && c.toNat ≤ 57) || (65 ≤ c.toNat && c.toNat ≤ 70)

set_option maxRecDepth 4000 in
lemma chanChars_spec_fin : ∀ k : Fin 271,
    (chanChars ((k.val : ℤ) - 15)).length = 2 ∧
    (chanChars ((k.val : ℤ) - 15)).all goodChanChar = true ∧
    jsParseIntHexL (chanChars ((k.val : ℤ) - 15)) = some ((k.val : ℤ) - 15) ∧
    (15 ≤ k.val → (chanChars ((k.val : ℤ) - 15)).all isUpperHexDigit = true) := by
  decide

lemma chanChars_spec (x : ℤ) (h1 : -15 ≤ x) (h2 : x ≤ 255) :
    (chanChars x).length = 2 ∧ (chanChars x).all goodChanChar = true ∧
    jsParseIntHexL (chanChars x) = some x ∧
    (0 ≤ x → (chanChars x).all isUpperHexDigit = true) := by
  have hlt : (x + 15).toNat < 271 := by omega
  have h := chanChars_spec_fin ⟨(x + 15).toNat, hlt⟩
  have e : (((x + 15).toNat : ℕ) : ℤ) - 15 = x := by omega
  rw [Fin.val_mk, e] at h
  exact ⟨h.1, h.2.1, h.2.2.1, fun hx => h.2.2.2 (by omega)⟩

lemma dropWhile_eq_self_of_all {p : Char → Bool} :
    ∀ {l : List Char}, (∀ c ∈ l, p c = false) → l.dropWhile p = l := by
  intro l h
  cases l with
  | nil => rfl
  | cons c cs =>
    rw [List.dropWhile_cons]
    simp [h c (List.mem_cons_self c cs)]

lemma jsTrimL_eq_self {l : List Char} (h : ∀ c ∈ l, jsIsWhitespace c = false) :
    jsTrimL l = l := by
  unfold jsTrimL
  rw [dropWhile_eq_self_of_all h]
  rw [dropWhile_eq_self_of_all (fun c hc => h c (List.mem_reverse.mp hc))]
  exact List.reverse_reverse l

lemma removeFirstHash_cons_hash (l : List Char) : removeFirstHash ('#' :: l) = l := by
  simp [removeFirstHash]

lemma rgbToHexL_eq (r g b : ℤ) :
    rgbToHexL r g b = '#' :: (chanChars r ++ chanChars g ++ chanChars b) := by
  unfold rgbToHexL chanChars
  simp [List.map_append]

lemma hexToRgb_rgbToHex (r g b : ℤ) (hr1 : -15 ≤ r) (hr2 : r ≤ 255)
    (hg1 : -15 ≤ g) (hg2 : g ≤ 255) (hb1 : -15 ≤ b) (hb2 : b ≤ 255) :
    hexToRgb (rgbToHex r g b) = some ⟨r, g, b⟩ ∧ (rgbToHex r g b).length = 7 := by
  obtain ⟨hRl, hRg, hRp, -⟩ := chanChars_spec r hr1 hr2
  obtain ⟨hGl, hGg, hGp, -⟩ := chanChars_spec g hg1 hg2
  obtain ⟨hBl, hBg, hBp, -⟩ := chanChars_spec b hb1 hb2
  have hnws : ∀ c ∈ chanChars r ++ chanChars g ++ chanChars b, jsIsWhitespace c = false := by
    intro c hc
    have hg : goodChanChar c = true := by
      simp only [List.all_eq_true] at hRg hGg hBg
      rcases List.mem_append.mp hc with hc' | hc'
      · rcases List.mem_append.mp hc' with hc'' | hc''
        · exact hRg c hc''
        · exact hGg c hc''
      · exact hBg c hc'
    simp only [goodChanChar, Bool.and_eq_true, Bool.not_eq_true'] at hg
    exact hg.1
  have hclean : cleanHexOf (rgbToHexL r g b)
      = chanChars r ++ chanChars g ++ chanChars b := by
    rw [cleanHexOf, rgbToHexL_eq, removeFirstHash_cons_hash, jsTrimL_eq_self hnws]
  have hlen : (chanChars r ++ chanChars g ++ chanChars b).length = 6 := by
    simp [hRl, hGl, hBl]
  constructor
  · show hexToRgbL (rgbToHexL r g b) = some ⟨r, g, b⟩
    unfold hexToRgbL
    rw [hclean]
    have e1 : listSub (chanChars r ++ chanChars g ++ chanChars b) 0 2 = chanChars r := by
      unfold listSub
      rw [List.drop_zero, List.append_assoc, List.take_left' hRl]
    have e2 : listSub (chanChars r ++ chanChars g ++ chanChars b) 2 4 = chanChars g := by
      unfold listSub
      rw [List.append_assoc, List.drop_left' hRl, List.take_left' hGl]
    have e3 : listSub (chanChars r ++ chanChars g ++ chanChars b) 4 6 = chanChars b := by
      have h4 : (chanChars r ++ chanChars g).length = 4 := by simp [hRl, hGl]
      unfold listSub
      rw [List.drop_left' h4]
      rw [show (6 - 4 : ℕ) = 2 from rfl, ← hBl, List.take_length]
    simp only [hlen, e1, e2, e3, hRp, hGp, hBp, Option.some_bind, Option.map_some,
      if_true, reduceIte]
    rfl
  · show (rgbToHexL r g b).length = 7
    rw [rgbToHexL_eq]
    simp [hRl, hGl, hBl]


/-! ## Bounds on short `parseInt` inputs -/

lemma hexDigitVal_lt {c : Char} {v : ℕ} (h : hexDigitVal c = some v) : v < 16 := by
  simp only [hexDigitVal] at h
  split_ifs at h <;> simp_all <;> omega

lemma length_dropWhile_le (p : Char → Bool) (l : List Char) :
    (l.dropWhile p).length ≤ l.length := by
  induction l with
  | nil => simp
  | cons c cs ih =>
    rw [List.dropWhile_cons]
    split_ifs
    · exact le_trans ih (by simp)
    · simp

lemma jsParseIntHexL_short_bounds {l : List Char} (hl : l.length ≤ 2) {v : ℤ}
    (h : jsParseIntHexL l = some v) : -15 ≤ v ∧ v ≤ 255 := by
  have hl1 : (l.dropWhile jsIsWhitespace).length ≤ 2 :=
    le_trans (length_dropWhile_le _ _) hl
  unfold jsParseIntHexL at h
  rcases hld : l.dropWhile jsIsWhitespace with - | ⟨a, - | ⟨b, rest⟩⟩
  · rw [hld] at h
    simp [parseSign, strip0x] at h
  · rw [hld] at h
    by_cases ha1 : a = '-'
    · subst ha1
      simp [parseSign, strip0x] at h
    · by_cases ha2 : a = '+'
      · subst ha2
        simp [parseSign, ha1, strip0x] at h
      · simp only [parseSign, if_neg ha1, if_neg ha2, strip0x] at h
        rcases hhx : hexDigitVal a with - | w
        · simp [List.takeWhile_cons, hhx] at h
        · have hw := hexDigitVal_lt hhx
          simp [List.takeWhile_cons, hhx, digitsVal] at h
          omega
  · have hrest : rest.length = 0 := by
      rw [hld] at hl1
      simp only [List.length_cons] at hl1
      omega
    rw [List.length_eq_zero] at hrest
    subst hrest
    rw [hld] at h
    by_cases ha1 : a = '-'
    · subst ha1
      simp only [parseSign, if_pos rfl, strip0x] at h
      rcases hhx : hexDigitVal b with - | w
      · simp [List.takeWhile_cons, hhx] at h
      · have hw := hexDigitVal_lt hhx
        simp [List.takeWhile_cons, hhx, digitsVal] at h
        omega
    · by_cases ha2 : a = '+'
      · subst ha2
        simp only [parseSign, if_neg ha1, if_pos rfl, strip0x] at h
        rcases hhx : hexDigitVal b with - | w
        · simp [List.takeWhile_cons, hhx] at h
        · have hw := hexDigitVal_lt hhx
          simp [List.takeWhile_cons, hhx, digitsVal] at h
          omega
      · simp only [parseSign, if_neg ha1, if_neg ha2, strip0x] at h
        by_cases h0x : a = '0' ∧ (b = 'x' ∨ b = 'X')
        · rw [if_pos h0x] at h
          simp at h
        · rw [if_neg h0x] at h
          rcases hhxa : hexDigitVal a with - | w1
          · simp [List.takeWhile_cons, hhxa] at h
          · have hw1 := hexDigitVal_lt hhxa
            rcases hhxb : hexDigitVal b with - | w2
            · simp [List.takeWhile_cons, hhxa, hhxb, digitsVal] at h
              omega
            · have hw2 := hexDigitVal_lt hhxb
              simp [List.takeWhile_cons, hhxa, hhxb, digitsVal] at h
              omega


/-! ## Which strings `hexToRgb` accepts -/

def isHexDigitB (c : Char) : Bool := (hexDigitVal c).isSome

lemma hexDigit_codes {c : Char} (h : isHexDigitB c = true) :
    (48 ≤ c.toNat ∧ c.toNat ≤ 57) ∨ (97 ≤ c.toNat ∧ c.toNat ≤ 102) ∨
    (65 ≤ c.toNat ∧ c.toNat ≤ 70) := by
  simp only [isHexDigitB, hexDigitVal] at h
  split_ifs at h <;> simp_all

lemma hexDigit_not_ws {c : Char} (h : isHexDigitB c = true) :
    jsIsWhitespace c = false := by
  have hc := hexDigit_codes h
  simp only [jsIsWhitespace, Bool.or_eq_false_iff, decide_eq_false_iff_not]
  omega

lemma parse_two_hex {c1 c2 : Char} (h1 : isHexDigitB c1 = true)
    (h2 : isHexDigitB c2 = true) : ∃ w, jsParseIntHexL [c1, c2] = some w := by
  have hc1 := hexDigit_codes h1
  have hc2 := hexDigit_codes h2
  have hm : c1 ≠ '-' := by intro he; rw [he] at hc1; simp at hc1
  have hp : c1 ≠ '+' := by intro he; rw [he] at hc1; simp at hc1
  have h0x : ¬ (c1 = '0' ∧ (c2 = 'x' ∨ c2 = 'X')) := by
    rintro ⟨-, he | he⟩ <;> (rw [he] at hc2; simp at hc2)
  unfold jsParseIntHexL
  simp only [List.dropWhile_cons, hexDigit_not_ws h1, Bool.false_eq_true, if_false,
    parseSign, if_neg hm, if_neg hp, strip0x, if_neg h0x, List.takeWhile_cons]
  simp only [isHexDigitB] at h1 h2
  simp [h1, h2]

lemma parse_two_hex_list {l : List Char} (hlen : l.length = 2)
    (hall : ∀ c ∈ l, isHexDigitB c = true) : ∃ w, jsParseIntHexL l = some w := by
  obtain ⟨a, b, rfl⟩ := List.length_eq_two.mp hlen
  exact parse_two_hex (hall a (by simp)) (hall b (by simp))

/-- Modelled from the spec: an optional leading `#`, trimmed whitespace, then
exactly 6 or exactly 3 hex digits — the validity characterization the spec
states for `fromHex`, to be compared with the behaviour of `hexToRgb`. -/
def specHexValid (s : String) : Bool :=
  let clean := cleanHexOf s.data
  (clean.length = 6 || clean.length = 3) && clean.all isHexDigitB

lemma hexToRgb_isSome_of_specHexValid {s : String} (h : specHexValid s = true) :
    (hexToRgb s).isSome = true := by
  simp only [specHexValid, Bool.and_eq_true, Bool.or_eq_true, decide_eq_true_eq,
    List.all_eq_true] at h
  obtain ⟨h63, hall⟩ := h
  simp only [hexToRgb, hexToRgbL]
  rcases h63 with h6 | h3
  · rw [if_pos h6]
    have hs1 : ∃ w, jsParseIntHexL (listSub (cleanHexOf s.data) 0 2) = some w := by
      apply parse_two_hex_list
      · simp [listSub, h6]
      · intro c hc
        exact hall c (List.Sublist.mem hc
          ((List.take_sublist _ _).trans (List.drop_sublist _ _)))
    have hs2 : ∃ w, jsParseIntHexL (listSub (cleanHexOf s.data) 2 4) = some w := by
      apply parse_two_hex_list
      · simp [listSub, h6]
      · intro c hc
        exact hall c (List.Sublist.mem hc
          ((List.take_sublist _ _).trans (List.drop_sublist _ _)))
    have hs3 : ∃ w, jsParseIntHexL (listSub (cleanHexOf s.data) 4 6) = some w := by
      apply parse_two_hex_list
      · simp [listSub, h6]
      · intro c hc
        exact hall c (List.Sublist.mem hc
          ((List.take_sublist _ _).trans (List.drop_sublist _ _)))
    obtain ⟨w1, e1⟩ := hs1
    obtain ⟨w2, e2⟩ := hs2
    obtain ⟨w3, e3⟩ := hs3
    rw [e1, e2, e3]
    simp
  · rw [if_neg (by omega), if_pos h3]
    have hmem : ∀ i : ℕ, i < 3 → (cleanHexOf s.data).getD i ' ' ∈ cleanHexOf s.data := by
      intro i hi
      rw [List.getD_eq_getElem _ _ (by omega)]
      exact List.getElem_mem _
    have hs : ∀ i : ℕ, i < 3 →
        ∃ w, jsParseIntHexL [(cleanHexOf s.data).getD i ' ',
          (cleanHexOf s.data).getD i ' '] = some w := by
      intro i hi
      have hd := hall _ (hmem i hi)
      exact parse_two_hex hd hd
    obtain ⟨w1, e1⟩ := hs 0 (by omega)
    obtain ⟨w2, e2⟩ := hs 1 (by omega)
    obtain ⟨w3, e3⟩ := hs 2 (by omega)
    rw [e1, e2, e3]
    simp

lemma hexToRgb_none_of_bad_length {s : String}
    (h6 : (cleanHexOf s.data).length ≠ 6) (h3 : (cleanHexOf s.data).length ≠ 3) :
    hexToRgb s = none := by
  simp only [hexToRgb, hexToRgbL]
  rw [if_neg h6, if_neg h3]


/-! ### Field-preservation facts for the effect bodies -/

lemma highScoreFx_gameState (s : GState) : (highScoreFx s).gameState = s.gameState := rfl
lemma highScoreFx_score (s : GState) : (highScoreFx s).score = s.score := rfl
lemma highScoreFx_userColor (s : GState) : (highScoreFx s).userColor = s.userColor := rfl
lemma highScoreFx_hexInputValue (s : GState) : (highScoreFx s).hexInputValue = s.hexInputValue := rfl
lemma highScoreFx_isEditingHex (s : GState) : (highScoreFx s).isEditingHex = s.isEditingHex := rfl
lemma highScoreFx_isResetting (s : GState) : (highScoreFx s).isResetting = s.isResetting := rfl
lemma highScoreFx_history (s : GState) : (highScoreFx s).history = s.history := rfl
lemma highScoreFx_timeLeft (s : GState) : (highScoreFx s).timeLeft = s.timeLeft := rfl
lemma highScoreFx_timerDuration (s : GState) : (highScoreFx s).timerDuration = s.timerDuration := rfl
lemma highScoreFx_strictMode (s : GState) : (highScoreFx s).strictMode = s.strictMode := rfl
lemma highScoreFx_hasLostFocus (s : GState) : (highScoreFx s).hasLostFocus = s.hasLostFocus := rfl

lemma timerFx_score (s : GState) : (timerFx s).score = s.score := rfl
lemma timerFx_highScore (s : GState) : (timerFx s).highScore = s.highScore := rfl
lemma timerFx_userColor (s : GState) : (timerFx s).userColor = s.userColor := rfl
lemma timerFx_hexInputValue (s : GState) : (timerFx s).hexInputValue = s.hexInputValue := rfl
lemma timerFx_isEditingHex (s : GState) : (timerFx s).isEditingHex = s.isEditingHex := rfl
lemma timerFx_isResetting (s : GState) : (timerFx s).isResetting = s.isResetting := rfl
lemma timerFx_history (s : GState) : (timerFx s).history = s.history := rfl
lemma timerFx_timeLeft (s : GState) : (timerFx s).timeLeft = s.timeLeft := rfl
lemma timerFx_timerDuration (s : GState) : (timerFx s).timerDuration = s.timerDuration := rfl
lemma timerFx_strictMode (s : GState) : (timerFx s).strictMode = s.strictMode := rfl
lemma timerFx_hasLostFocus (s : GState) : (timerFx s).hasLostFocus = s.hasLostFocus := rfl

lemma hexSyncFx_score (s : GState) : (hexSyncFx s).score = s.score := by
  unfold hexSyncFx; split_ifs <;> rfl
lemma hexSyncFx_highScore (s : GState) : (hexSyncFx s).highScore = s.highScore := by
  unfold hexSyncFx; split_ifs <;> rfl
lemma hexSyncFx_gameState (s : GState) : (hexSyncFx s).gameState = s.gameState := by
  unfold hexSyncFx; split_ifs <;> rfl
lemma hexSyncFx_userColor (s : GState) : (hexSyncFx s).userColor = s.userColor := by
  unfold hexSyncFx; split_ifs <;> rfl
lemma hexSyncFx_isEditingHex (s : GState) : (hexSyncFx s).isEditingHex = s.isEditingHex := by
  unfold hexSyncFx; split_ifs <;> rfl
lemma hexSyncFx_history (s : GState) : (hexSyncFx s).history = s.history := by
  unfold hexSyncFx; split_ifs <;> rfl
lemma hexSyncFx_timeLeft (s : GState) : (hexSyncFx s).timeLeft = s.timeLeft := by
  unfold hexSyncFx; split_ifs <;> rfl
lemma hexSyncFx_timerDuration (s : GState) : (hexSyncFx s).timerDuration = s.timerDuration := by
  unfold hexSyncFx; split_ifs <;> rfl
lemma hexSyncFx_strictMode (s : GState) : (hexSyncFx s).strictMode = s.strictMode := by
  unfold hexSyncFx; split_ifs <;> rfl
lemma hexSyncFx_hasLostFocus (s : GState) : (hexSyncFx s).hasLostFocus = s.hasLostFocus := by
  unfold hexSyncFx; split_ifs <;> rfl

lemma step_score (s : GState) (e : Event) : (step s e).score = (handle s e).score := by
  unfold step
  simp only [apply_ite GState.score, highScoreFx_score, hexSyncFx_score, timerFx_score, ite_self]

lemma step_history (s : GState) (e : Event) : (step s e).history = (handle s e).history := by
  unfold step
  simp only [apply_ite GState.history, highScoreFx_history, hexSyncFx_history, timerFx_history,
    ite_self]

lemma step_timeLeft (s : GState) (e : Event) : (step s e).timeLeft = (handle s e).timeLeft := by
  unfold step
  simp only [apply_ite GState.timeLeft, highScoreFx_timeLeft, hexSyncFx_timeLeft,
    timerFx_timeLeft, ite_self]

lemma step_timerDuration (s : GState) (e : Event) :
    (step s e).timerDuration = (handle s e).timerDuration := by
  unfold step
  simp only [apply_ite GState.timerDuration, highScoreFx_timerDuration,
    hexSyncFx_timerDuration, timerFx_timerDuration, ite_self]

lemma step_userColor (s : GState) (e : Event) : (step s e).userColor = (handle s e).userColor := by
  unfold step
  simp only [apply_ite GState.userColor, highScoreFx_userColor, hexSyncFx_userColor,
    timerFx_userColor, ite_self]

lemma step_isEditingHex (s : GState) (e : Event) :
    (step s e).isEditingHex = (handle s e).isEditingHex := by
  unfold step
  simp only [apply_ite GState.isEditingHex, highScoreFx_isEditingHex, hexSyncFx_isEditingHex,
    timerFx_isEditingHex, ite_self]

lemma step_strictMode (s : GState) (e : Event) :
    (step s e).strictMode = (handle s e).strictMode := by
  unfold step
  simp only [apply_ite GState.strictMode, highScoreFx_strictMode, hexSyncFx_strictMode,
    timerFx_strictMode, ite_self]

lemma step_hasLostFocus (s : GState) (e : Event) :
    (step s e).hasLostFocus = (handle s e).hasLostFocus := by
  unfold step
  simp only [apply_ite GState.hasLostFocus, highScoreFx_hasLostFocus, hexSyncFx_hasLostFocus,
    timerFx_hasLostFocus, ite_self]

lemma hexSyncFx_congr_mirror {t t' : GState} (h1 : t.isResetting = t'.isResetting)
    (h2 : t.isEditingHex = t'.isEditingHex) (h3 : t.userColor = t'.userColor)
    (h4 : t.hexInputValue = t'.hexInputValue) :
    (hexSyncFx t).hexInputValue = (hexSyncFx t').hexInputValue ∧
    (hexSyncFx t).isResetting = (hexSyncFx t').isResetting := by
  unfold hexSyncFx
  rw [h1, h2]
  split_ifs <;> simp [h1, h2, h3, h4]

lemma hexSyncFx_highScoreFx_hex (t : GState) :
    (hexSyncFx (highScoreFx t)).hexInputValue = (hexSyncFx t).hexInputValue :=
  (@hexSyncFx_congr_mirror (highScoreFx t) t rfl rfl rfl rfl).1

lemma hexSyncFx_highScoreFx_isResetting (t : GState) :
    (hexSyncFx (highScoreFx t)).isResetting = (hexSyncFx t).isResetting :=
  (@hexSyncFx_congr_mirror (highScoreFx t) t rfl rfl rfl rfl).2

lemma step_hexInputValue (s : GState) (e : Event) :
    (step s e).hexInputValue =
    if callsSetUserColor e = true ∨ (handle s e).isEditingHex ≠ s.isEditingHex
    then (hexSyncFx (handle s e)).hexInputValue else (handle s e).hexInputValue := by
  unfold step
  simp only [apply_ite GState.isEditingHex, highScoreFx_isEditingHex, ite_self,
    apply_ite GState.hexInputValue, timerFx_hexInputValue, highScoreFx_hexInputValue]
  split_ifs <;> simp [hexSyncFx_highScoreFx_hex]

lemma step_isResetting (s : GState) (e : Event) :
    (step s e).isResetting =
    if callsSetUserColor e = true ∨ (handle s e).isEditingHex ≠ s.isEditingHex
    then (hexSyncFx (handle s e)).isResetting else (handle s e).isResetting := by
  unfold step
  simp only [apply_ite GState.isEditingHex, highScoreFx_isEditingHex, ite_self,
    apply_ite GState.isResetting, timerFx_isResetting, highScoreFx_isResetting]
  split_ifs <;> simp [hexSyncFx_highScoreFx_isResetting]

lemma timerFx_congr_gameState {t t' : GState} (h1 : t.gameState = t'.gameState)
    (h2 : t.timeLeft = t'.timeLeft) (h3 : t.timerDuration = t'.timerDuration) :
    (timerFx t).gameState = (timerFx t').gameState := by
  simp only [timerFx]
  rw [h1, h2, h3]

lemma step_highScore (s : GState) (e : Event) :
    (step s e).highScore =
    if (handle s e).score ≠ s.score ∨ (handle s e).highScore ≠ s.highScore ∨
       (handle s e).hasLostFocus ≠ s.hasLostFocus ∨ (handle s e).strictMode ≠ s.strictMode
    then (highScoreFx (handle s e)).highScore else (handle s e).highScore := by
  unfold step
  simp only [apply_ite GState.highScore, timerFx_highScore, hexSyncFx_highScore, ite_self]

lemma step_gameState (s : GState) (e : Event) :
    (step s e).gameState =
    if (handle s e).gameState ≠ s.gameState ∨ (handle s e).timeLeft ≠ s.timeLeft ∨
       (handle s e).timerDuration ≠ s.timerDuration
    then (timerFx (handle s e)).gameState else (handle s e).gameState := by
  unfold step
  simp only [apply_ite GState.gameState, apply_ite GState.timeLeft,
    apply_ite GState.timerDuration, highScoreFx_gameState, highScoreFx_timeLeft,
    highScoreFx_timerDuration, hexSyncFx_gameState, hexSyncFx_timeLeft,
    hexSyncFx_timerDuration, ite_self]
  split_ifs with h1 h2 h3 <;> try rfl
  all_goals {
    first
    | rfl
    | (apply timerFx_congr_gameState <;>
        simp [apply_ite GState.gameState, apply_ite GState.timeLeft,
          apply_ite GState.timerDuration, highScoreFx_gameState, highScoreFx_timeLeft,
          highScoreFx_timerDuration, hexSyncFx_gameState, hexSyncFx_timeLeft,
          hexSyncFx_timerDuration, ite_self]) }


/-! ## The hex-mirror invariant -/

/-- The channel range `hexToRgb` and the sliders can actually produce: sliders
give `[0, 255]`; hex parsing can also produce `-15 … -1` (a signed hex digit). -/
def colorOKWide (c : Color) : Prop :=
  (-15 ≤ c.r ∧ c.r ≤ 255) ∧ (-15 ≤ c.g ∧ c.g ≤ 255) ∧ (-15 ≤ c.b ∧ c.b ≤ 255)

lemma hexToRgbL_colorOKWide {l : List Char} {c : Color}
    (h : hexToRgbL l = some c) : colorOKWide c := by
  simp only [hexToRgbL] at h
  split_ifs at h with h6 h3
  · rcases e1 : jsParseIntHexL (listSub (cleanHexOf l) 0 2) with - | w1 <;> rw [e1] at h
    · simp at h
    rcases e2 : jsParseIntHexL (listSub (cleanHexOf l) 2 4) with - | w2 <;> rw [e2] at h
    · simp at h
    rcases e3 : jsParseIntHexL (listSub (cleanHexOf l) 4 6) with - | w3 <;> rw [e3] at h
    · simp at h
    simp only [Option.some_bind, Option.map_some] at h
    have b1 := jsParseIntHexL_short_bounds (by simp [listSub]) e1
    have b2 := jsParseIntHexL_short_bounds (by simp [listSub]) e2
    have b3 := jsParseIntHexL_short_bounds (by simp [listSub]) e3
    cases h
    exact ⟨b1, b2, b3⟩
  · rcases e1 : jsParseIntHexL [(cleanHexOf l).getD 0 ' ', (cleanHexOf l).getD 0 ' ']
        with - | w1 <;> rw [e1] at h
    · simp at h
    rcases e2 : jsParseIntHexL [(cleanHexOf l).getD 1 ' ', (cleanHexOf l).getD 1 ' ']
        with - | w2 <;> rw [e2] at h
    · simp at h
    rcases e3 : jsParseIntHexL [(cleanHexOf l).getD 2 ' ', (cleanHexOf l).getD 2 ' ']
        with - | w3 <;> rw [e3] at h
    · simp at h
    simp only [Option.some_bind, Option.map_some] at h
    have b1 := jsParseIntHexL_short_bounds (by simp) e1
    have b2 := jsParseIntHexL_short_bounds (by simp) e2
    have b3 := jsParseIntHexL_short_bounds (by simp) e3
    cases h
    exact ⟨b1, b2, b3⟩

lemma hexToRgb_colorOKWide {s : String} {c : Color}
    (h : hexToRgb s = some c) : colorOKWide c :=
  hexToRgbL_colorOKWide h

lemma roundtrip_of_colorOKWide {c : Color} (h : colorOKWide c) :
    hexToRgb (rgbToHex c.r c.g c.b) = some c := by
  obtain ⟨⟨h1, h2⟩, ⟨h3, h4⟩, ⟨h5, h6⟩⟩ := h
  exact (hexToRgb_rgbToHex c.r c.g c.b h1 h2 h3 h4 h5 h6).1

/-- The relation between the hex mirror and the user color that holds in every
quiescent state: the one-shot suppression flag is spent, the user color is in
the representable range, and — when the user is not editing — the mirror
either parses back to exactly the user color or is the fresh-round
placeholder `#` with the user color still black. -/
def mirrorOK (s : GState) : Prop :=
  s.isResetting = false ∧ colorOKWide s.userColor ∧
  (s.isEditingHex = false →
    hexToRgb s.hexInputValue = some s.userColor ∨
    (s.hexInputValue = "#" ∧ s.userColor = ⟨0, 0, 0⟩))

lemma mirrorOK_step_untouched {s : GState} {e : Event}
    (hc : callsSetUserColor e = false)
    (hu : (handle s e).userColor = s.userColor)
    (hh : (handle s e).hexInputValue = s.hexInputValue)
    (he : (handle s e).isEditingHex = s.isEditingHex)
    (hr : (handle s e).isResetting = s.isResetting)
    (H : mirrorOK s) : mirrorOK (step s e) := by
  have hcond : ¬ (callsSetUserColor e = true ∨ (handle s e).isEditingHex ≠ s.isEditingHex) := by
    simp [hc, he]
  unfold mirrorOK
  rw [step_userColor, step_isEditingHex, step_hexInputValue, step_isResetting,
    if_neg hcond, if_neg hcond, hu, hh, he, hr]
  exact H

lemma hexSyncFx_of_resetting {t : GState} (h : t.isResetting = true) :
    hexSyncFx t = { t with isResetting := false } := by
  unfold hexSyncFx
  rw [if_pos h]

lemma hexSyncFx_of_quiet_notEditing {t : GState} (h1 : t.isResetting = false)
    (h2 : t.isEditingHex = false) :
    hexSyncFx t =
      { t with hexInputValue := (rgbToHex t.userColor.r t.userColor.g t.userColor.b) } := by
  unfold hexSyncFx
  rw [if_neg (by simp [h1]), if_pos h2]

lemma hexSyncFx_of_quiet_editing {t : GState} (h1 : t.isResetting = false)
    (h2 : t.isEditingHex = true) : hexSyncFx t = t := by
  unfold hexSyncFx
  rw [if_neg (by simp [h1]), if_neg (by simp [h2])]

lemma colorOKWide_black : colorOKWide ⟨0, 0, 0⟩ := by
  unfold colorOKWide
  norm_num

lemma colorOKWide_setChannel {c : Color} {ch : Channel} {v : ℤ}
    (h : colorOKWide c) (hv1 : -15 ≤ v) (hv2 : v ≤ 255) :
    colorOKWide (setChannel c ch v) := by
  obtain ⟨hr, hg, hb⟩ := h
  cases ch
  · exact ⟨⟨hv1, hv2⟩, hg, hb⟩
  · exact ⟨hr, ⟨hv1, hv2⟩, hb⟩
  · exact ⟨hr, hg, ⟨hv1, hv2⟩⟩

lemma mirrorOK_start {s : GState} (c : Color) : mirrorOK (step s (.start c)) := by
  have hcond : callsSetUserColor (Event.start c) = true ∨
      (handle s (.start c)).isEditingHex ≠ s.isEditingHex := Or.inl rfl
  have hres : (handle s (.start c)).isResetting = true := rfl
  refine ⟨?_, ?_, ?_⟩
  · rw [step_isResetting, if_pos hcond, hexSyncFx_of_resetting hres]
  · rw [step_userColor]
    exact colorOKWide_black
  · intro _
    right
    constructor
    · rw [step_hexInputValue, if_pos hcond, hexSyncFx_of_resetting hres]
      rfl
    · rw [step_userColor]
      rfl

lemma mirrorOK_roundReset {s : GState} (c : Color) : mirrorOK (step s (.roundReset c)) := by
  have hcond : callsSetUserColor (Event.roundReset c) = true ∨
      (handle s (.roundReset c)).isEditingHex ≠ s.isEditingHex := Or.inl rfl
  have hres : (handle s (.roundReset c)).isResetting = true := rfl
  refine ⟨?_, ?_, ?_⟩
  · rw [step_isResetting, if_pos hcond, hexSyncFx_of_resetting hres]
  · rw [step_userColor]
    exact colorOKWide_black
  · intro _
    right
    constructor
    · rw [step_hexInputValue, if_pos hcond, hexSyncFx_of_resetting hres]
      rfl
    · rw [step_userColor]
      rfl

lemma mirrorOK_slider {s : GState} {ch : Channel} {v : ℤ} (hv1 : 0 ≤ v) (hv2 : v ≤ 255)
    (H : mirrorOK s) : mirrorOK (step s (.sliderChange ch v)) := by
  obtain ⟨Hres, Hok, Hmir⟩ := H
  have hcond : callsSetUserColor (Event.sliderChange ch v) = true ∨
      (handle s (.sliderChange ch v)).isEditingHex ≠ s.isEditingHex := Or.inl rfl
  have hres : (handle s (.sliderChange ch v)).isResetting = false := Hres
  have hu : (handle s (.sliderChange ch v)).userColor = setChannel s.userColor ch v := rfl
  have hok : colorOKWide (handle s (.sliderChange ch v)).userColor := by
    rw [hu]
    exact colorOKWide_setChannel Hok (by omega) hv2
  have hed : (handle s (.sliderChange ch v)).isEditingHex = s.isEditingHex := rfl
  refine ⟨?_, ?_, ?_⟩
  · rw [step_isResetting, if_pos hcond]
    by_cases he : s.isEditingHex = true
    · rw [hexSyncFx_of_quiet_editing hres (hed.trans he), hres]
    · rw [hexSyncFx_of_quiet_notEditing hres (by simp [hed]; exact Bool.not_eq_true _ |>.mp he)]
      exact hres
  · rw [step_userColor]
    exact hok
  · intro hedf
    rw [step_isEditingHex, hed] at hedf
    left
    rw [step_hexInputValue, if_pos hcond, hexSyncFx_of_quiet_notEditing hres (hed.trans hedf),
      step_userColor]
    exact roundtrip_of_colorOKWide hok

lemma mirrorOK_hexChange {s : GState} {val : String} (hed : s.isEditingHex = true)
    (H : mirrorOK s) : mirrorOK (step s (.hexChange val)) := by
  obtain ⟨Hres, Hok, -⟩ := H
  have hede : (handle s (.hexChange val)).isEditingHex = s.isEditingHex := by
    simp only [handle]
    rcases hexToRgb val with - | c <;> rfl
  have hres : (handle s (.hexChange val)).isResetting = s.isResetting := by
    simp only [handle]
    rcases hexToRgb val with - | c <;> rfl
  refine ⟨?_, ?_, ?_⟩
  · rw [step_isResetting]
    split_ifs with hc
    · rw [hexSyncFx_of_quiet_editing (hres.trans Hres) (hede.trans hed), hres, Hres]
    · rw [hres, Hres]
  · rw [step_userColor]
    rcases hp : hexToRgb val with - | c
    · have he : (handle s (.hexChange val)).userColor = s.userColor := by
        simp only [handle, hp]
      rw [he]
      exact Hok
    · have he : (handle s (.hexChange val)).userColor = c := by
        simp only [handle, hp]
      rw [he]
      exact hexToRgb_colorOKWide hp
  · intro hedf
    rw [step_isEditingHex, hede, hed] at hedf
    exact absurd hedf (by simp)

lemma mirrorOK_hexFocus {s : GState} (H : mirrorOK s) : mirrorOK (step s .hexFocus) := by
  obtain ⟨Hres, Hok, -⟩ := H
  have hede : (handle s .hexFocus).isEditingHex = true := rfl
  have hres : (handle s .hexFocus).isResetting = s.isResetting := rfl
  refine ⟨?_, ?_, ?_⟩
  · rw [step_isResetting]
    split_ifs with hc
    · rw [hexSyncFx_of_quiet_editing (hres.trans Hres) hede, hres, Hres]
    · rw [hres, Hres]
  · rw [step_userColor]
    exact Hok
  · intro hedf
    rw [step_isEditingHex, hede] at hedf
    exact absurd hedf (by simp)

lemma mirrorOK_hexBlur {s : GState} (H : mirrorOK s) : mirrorOK (step s .hexBlur) := by
  obtain ⟨Hres, Hok, Hmir⟩ := H
  have hede : (handle s .hexBlur).isEditingHex = false := rfl
  have hres : (handle s .hexBlur).isResetting = s.isResetting := rfl
  have hu : (handle s .hexBlur).userColor = s.userColor := rfl
  have hh : (handle s .hexBlur).hexInputValue = s.hexInputValue := rfl
  by_cases he : s.isEditingHex = true
  · have hcond : callsSetUserColor Event.hexBlur = true ∨
        (handle s .hexBlur).isEditingHex ≠ s.isEditingHex := by
      right
      rw [hede, he]
      simp
    refine ⟨?_, ?_, ?_⟩
    · rw [step_isResetting, if_pos hcond,
        hexSyncFx_of_quiet_notEditing (hres.trans Hres) hede, hres, Hres]
    · rw [step_userColor, hu]
      exact Hok
    · intro _
      left
      rw [step_hexInputValue, if_pos hcond,
        hexSyncFx_of_quiet_notEditing (hres.trans Hres) hede, step_userColor, hu]
      exact roundtrip_of_colorOKWide Hok
  · have he' : s.isEditingHex = false := Bool.not_eq_true _ |>.mp he
    have hcond : ¬ (callsSetUserColor Event.hexBlur = true ∨
        (handle s .hexBlur).isEditingHex ≠ s.isEditingHex) := by
      rw [hede, he']
      simp [callsSetUserColor]
    refine ⟨?_, ?_, ?_⟩
    · rw [step_isResetting, if_neg hcond, hres, Hres]
    · rw [step_userColor, hu]
      exact Hok
    · intro _
      rw [step_hexInputValue, if_neg hcond, hh, step_userColor, hu]
      exact Hmir he'

lemma handle_submit_mirror (s : GState) :
    (handle s .submit).userColor = s.userColor ∧
    (handle s .submit).hexInputValue = s.hexInputValue ∧
    (handle s .submit).isEditingHex = s.isEditingHex ∧
    (handle s .submit).isResetting = s.isResetting := by
  simp only [handle]
  split_ifs <;> exact ⟨rfl, rfl, rfl, rfl⟩

lemma handle_tick_mirror (s : GState) :
    (handle s .tick).userColor = s.userColor ∧
    (handle s .tick).hexInputValue = s.hexInputValue ∧
    (handle s .tick).isEditingHex = s.isEditingHex ∧
    (handle s .tick).isResetting = s.isResetting := by
  simp only [handle]
  split_ifs <;> exact ⟨rfl, rfl, rfl, rfl⟩

lemma handle_blurWindow_mirror (s : GState) :
    (handle s .blurWindow).userColor = s.userColor ∧
    (handle s .blurWindow).hexInputValue = s.hexInputValue ∧
    (handle s .blurWindow).isEditingHex = s.isEditingHex ∧
    (handle s .blurWindow).isResetting = s.isResetting := by
  simp only [handle]
  split_ifs <;> exact ⟨rfl, rfl, rfl, rfl⟩

lemma handle_endGame_mirror (s : GState) :
    (handle s .endGame).userColor = s.userColor ∧
    (handle s .endGame).hexInputValue = s.hexInputValue ∧
    (handle s .endGame).isEditingHex = s.isEditingHex ∧
    (handle s .endGame).isResetting = s.isResetting := by
  simp only [handle]
  split_ifs <;> exact ⟨rfl, rfl, rfl, rfl⟩

lemma handle_setStrict_mirror (s : GState) (b : Bool) :
    (handle s (.setStrict b)).userColor = s.userColor ∧
    (handle s (.setStrict b)).hexInputValue = s.hexInputValue ∧
    (handle s (.setStrict b)).isEditingHex = s.isEditingHex ∧
    (handle s (.setStrict b)).isResetting = s.isResetting :=
  ⟨rfl, rfl, rfl, rfl⟩

lemma handle_setBlind_mirror (s : GState) (b : Bool) :
    (handle s (.setBlind b)).userColor = s.userColor ∧
    (handle s (.setBlind b)).hexInputValue = s.hexInputValue ∧
    (handle s (.setBlind b)).isEditingHex = s.isEditingHex ∧
    (handle s (.setBlind b)).isResetting = s.isResetting :=
  ⟨rfl, rfl, rfl, rfl⟩

lemma handle_setTimer_mirror (s : GState) (v : Option ℤ) :
    (handle s (.setTimer v)).userColor = s.userColor ∧
    (handle s (.setTimer v)).hexInputValue = s.hexInputValue ∧
    (handle s (.setTimer v)).isEditingHex = s.isEditingHex ∧
    (handle s (.setTimer v)).isResetting = s.isResetting := by
  simp only [handle]
  split_ifs <;> exact ⟨rfl, rfl, rfl, rfl⟩

lemma mirrorOK_initState (h0 dur : ℤ) (θ : ℚ) (strict blind : Bool) :
    mirrorOK (initState h0 dur θ strict blind) :=
  ⟨rfl, colorOKWide_black, fun _ => Or.inr ⟨rfl, rfl⟩⟩

/-- Every state reachable through the UI satisfies the mirror invariant. -/
theorem mirrorOK_of_reachable {h0 dur : ℤ} {θ : ℚ} {strict blind : Bool} {s : GState}
    (h : Reachable h0 dur θ strict blind s) : mirrorOK s := by
  induction h with
  | init => exact mirrorOK_initState h0 dur θ strict blind
  | start hprev hne => exact mirrorOK_start _
  | submit hprev hp ih =>
    obtain ⟨f1, f2, f3, f4⟩ := handle_submit_mirror _
    exact mirrorOK_step_untouched rfl f1 f2 f3 f4 ih
  | roundReset hprev => exact mirrorOK_roundReset _
  | tick hprev h1 h2 h3 ih =>
    obtain ⟨f1, f2, f3, f4⟩ := handle_tick_mirror _
    exact mirrorOK_step_untouched rfl f1 f2 f3 f4 ih
  | blurWindow hprev ih =>
    obtain ⟨f1, f2, f3, f4⟩ := handle_blurWindow_mirror _
    exact mirrorOK_step_untouched rfl f1 f2 f3 f4 ih
  | sliderChange hprev hp hv1 hv2 ih => exact mirrorOK_slider hv1 hv2 ih
  | hexChange hprev hp hed ih => exact mirrorOK_hexChange hed ih
  | hexFocus hprev ih => exact mirrorOK_hexFocus ih
  | hexBlur hprev ih => exact mirrorOK_hexBlur ih
  | endGame hprev hp ih =>
    obtain ⟨f1, f2, f3, f4⟩ := handle_endGame_mirror _
    exact mirrorOK_step_untouched rfl f1 f2 f3 f4 ih
  | setStrict hprev ih =>
    obtain ⟨f1, f2, f3, f4⟩ := handle_setStrict_mirror _ _
    exact mirrorOK_step_untouched rfl f1 f2 f3 f4 ih
  | setBlind hprev ih =>
    obtain ⟨f1, f2, f3, f4⟩ := handle_setBlind_mirror _ _
    exact mirrorOK_step_untouched rfl f1 f2 f3 f4 ih
  | setTimer hprev ih =>
    obtain ⟨f1, f2, f3, f4⟩ := handle_setTimer_mirror _ _
    exact mirrorOK_step_untouched rfl f1 f2 f3 f4 ih


/-! ## The high-score invariant -/

/-- Shapes of `handle` on a submit, used by several claims. -/
lemma handle_submit_not_playing {s : GState} (hp : s.gameState ≠ .PLAYING) :
    handle s .submit = s := by
  simp only [handle]
  rw [if_pos hp]

lemma handle_submit_success {s : GState} (hp : s.gameState = .PLAYING)
    (hs : succeeds s.scoreThreshold s.targetColor s.userColor = true) :
    handle s .submit =
      { s with history := s.history ++ [(s.targetColor, s.userColor)],
               score := s.score + 1, lastShown := true, timeLeft := s.timerDuration } := by
  simp only [handle]
  rw [if_neg (by simp [hp]), if_pos hs]

lemma handle_submit_failure {s : GState} (hp : s.gameState = .PLAYING)
    (hs : succeeds s.scoreThreshold s.targetColor s.userColor = false) :
    handle s .submit =
      { s with history := s.history ++ [(s.targetColor, s.userColor)],
               lastShown := true } := by
  simp only [handle]
  rw [if_neg (by simp [hp]), if_neg (by simp [hs])]

/-- The invariant behind the high-score rule: scores are nonnegative and the
high score dominates the score except under strict-mode suppression. -/
def scoreOK (s : GState) : Prop :=
  0 ≤ s.score ∧ 0 ≤ s.highScore ∧
  (s.score ≤ s.highScore ∨ (s.strictMode = true ∧ s.hasLostFocus = true))

lemma scoreOK_step_untouched {s : GState} {e : Event}
    (h1 : (handle s e).score = s.score) (h2 : (handle s e).highScore = s.highScore)
    (h3 : (handle s e).hasLostFocus = s.hasLostFocus)
    (h4 : (handle s e).strictMode = s.strictMode)
    (H : scoreOK s) : scoreOK (step s e) := by
  have hcond : ¬ ((handle s e).score ≠ s.score ∨ (handle s e).highScore ≠ s.highScore ∨
      (handle s e).hasLostFocus ≠ s.hasLostFocus ∨ (handle s e).strictMode ≠ s.strictMode) := by
    simp [h1, h2, h3, h4]
  unfold scoreOK
  rw [step_score, step_strictMode, step_hasLostFocus, step_highScore, if_neg hcond,
    h1, h2, h3, h4]
  exact H

lemma highScoreFx_highScore (t : GState) :
    (highScoreFx t).highScore =
    if t.highScore < t.score ∧ (t.hasLostFocus = false ∨ t.strictMode = false)
    then t.score else t.highScore := rfl

lemma scoreOK_start {s : GState} (c : Color) (H : scoreOK s) :
    scoreOK (step s (.start c)) := by
  obtain ⟨H1, H2, H3⟩ := H
  have hsc : (handle s (.start c)).score = 0 := rfl
  have hhs : (handle s (.start c)).highScore = s.highScore := rfl
  have hst : (handle s (.start c)).strictMode = s.strictMode := rfl
  have hlf : (handle s (.start c)).hasLostFocus = false := rfl
  have hs' : (step s (.start c)).highScore = s.highScore := by
    rw [step_highScore]
    split_ifs with hc
    · rw [highScoreFx_highScore, hsc, hhs, if_neg (by omega)]
    · exact hhs
  refine ⟨?_, ?_, ?_⟩
  · rw [step_score, hsc]
  · rw [hs']
    exact H2
  · left
    rw [step_score, hsc, hs']
    exact H2

lemma handle_blur_not_playing {s : GState} (hp : s.gameState ≠ .PLAYING) :
    handle s .blurWindow = s := by
  simp only [handle]
  rw [if_neg (by simp_all)]

lemma handle_blur_playing {s : GState} (hp : s.gameState = .PLAYING) :
    handle s .blurWindow = { s with hasLostFocus := true } := by
  simp only [handle]
  rw [if_pos hp]

lemma scoreOK_blur {s : GState} (H : scoreOK s) : scoreOK (step s .blurWindow) := by
  by_cases hp : s.gameState = .PLAYING
  · have he := handle_blur_playing hp
    by_cases hl : s.hasLostFocus = true
    · have h3 : (handle s .blurWindow).hasLostFocus = s.hasLostFocus := by rw [he, hl]
      exact scoreOK_step_untouched (by rw [he]) (by rw [he]) h3 (by rw [he]) H
    · obtain ⟨H1, H2, H3⟩ := H
      have hA : s.score ≤ s.highScore := by
        rcases H3 with h | ⟨-, h⟩
        · exact h
        · exact absurd h hl
      have hcond : (handle s .blurWindow).score ≠ s.score ∨
          (handle s .blurWindow).highScore ≠ s.highScore ∨
          (handle s .blurWindow).hasLostFocus ≠ s.hasLostFocus ∨
          (handle s .blurWindow).strictMode ≠ s.strictMode := by
        right; right; left
        rw [he]
        simp [hl]
      have hs' : (step s .blurWindow).highScore = s.highScore := by
        rw [step_highScore, if_pos hcond, highScoreFx_highScore, he]
        exact if_neg (by simp; intro hcon; exact absurd hcon (by omega))
      refine ⟨?_, ?_, ?_⟩
      · rw [step_score, he]
        exact H1
      · rw [hs']
        exact H2
      · left
        rw [step_score, he, hs']
        exact hA
  · have he := handle_blur_not_playing hp
    exact scoreOK_step_untouched (by rw [he]) (by rw [he]) (by rw [he]) (by rw [he]) H

lemma scoreOK_submit {s : GState} (H : scoreOK s) : scoreOK (step s .submit) := by
  by_cases hp : s.gameState = .PLAYING
  · rcases hsu : succeeds s.scoreThreshold s.targetColor s.userColor with - | -
    · have he := handle_submit_failure hp hsu
      exact scoreOK_step_untouched (by rw [he]) (by rw [he]) (by rw [he]) (by rw [he]) H
    · obtain ⟨H1, H2, H3⟩ := H
      have he := handle_submit_success hp hsu
      have hcond : (handle s .submit).score ≠ s.score ∨
          (handle s .submit).highScore ≠ s.highScore ∨
          (handle s .submit).hasLostFocus ≠ s.hasLostFocus ∨
          (handle s .submit).strictMode ≠ s.strictMode := by
        left
        rw [he]
        simp
      have hsc : (step s .submit).score = s.score + 1 := by
        rw [step_score, he]
      have hhs : (step s .submit).highScore =
          if s.highScore < s.score + 1 ∧ (s.hasLostFocus = false ∨ s.strictMode = false)
          then s.score + 1 else s.highScore := by
        rw [step_highScore, if_pos hcond, highScoreFx_highScore, he]
      have hst : (step s .submit).strictMode = s.strictMode := by
        rw [step_strictMode, he]
      have hlf : (step s .submit).hasLostFocus = s.hasLostFocus := by
        rw [step_hasLostFocus, he]
      refine ⟨?_, ?_, ?_⟩
      · rw [hsc]
        omega
      · rw [hhs]
        split_ifs <;> omega
      · rw [hsc, hhs, hst, hlf]
        split_ifs with hc
        · left; omega
        · rw [not_and_or] at hc
          rcases hc with hc | hc
          · left; omega
          · right
            push_neg at hc
            obtain ⟨hc1, hc2⟩ := hc
            exact ⟨by simp at hc2; exact hc2, by simp at hc1; exact hc1⟩
  · have he := handle_submit_not_playing hp
    exact scoreOK_step_untouched (by rw [he]) (by rw [he]) (by rw [he]) (by rw [he]) H

lemma scoreOK_setStrict {s : GState} (b : Bool) (H : scoreOK s) :
    scoreOK (step s (.setStrict b)) := by
  by_cases hb : b = s.strictMode
  · exact scoreOK_step_untouched rfl rfl rfl (by simp only [handle]; rw [hb]) H
  · obtain ⟨H1, H2, H3⟩ := H
    have hcond : (handle s (.setStrict b)).score ≠ s.score ∨
        (handle s (.setStrict b)).highScore ≠ s.highScore ∨
        (handle s (.setStrict b)).hasLostFocus ≠ s.hasLostFocus ∨
        (handle s (.setStrict b)).strictMode ≠ s.strictMode := by
      right; right; right
      simpa using hb
    have hhs : (step s (.setStrict b)).highScore =
        if s.highScore < s.score ∧ (s.hasLostFocus = false ∨ b = false)
        then s.score else s.highScore := by
      rw [step_highScore, if_pos hcond, highScoreFx_highScore]
      rfl
    have hsc : (step s (.setStrict b)).score = s.score := by rw [step_score]; rfl
    have hst : (step s (.setStrict b)).strictMode = b := by rw [step_strictMode]; rfl
    have hlf : (step s (.setStrict b)).hasLostFocus = s.hasLostFocus := by
      rw [step_hasLostFocus]; rfl
    refine ⟨?_, ?_, ?_⟩
    · rw [hsc]
      exact H1
    · rw [hhs]
      split_ifs <;> omega
    · rw [hsc, hhs, hst, hlf]
      split_ifs with hc
    -- updated: score ≤ score
      · left; omega
      · rw [not_and_or] at hc
        rcases hc with hc | hc
        · left; omega
        · right
          push_neg at hc
          obtain ⟨hc1, hc2⟩ := hc
          exact ⟨by simp at hc2; exact hc2, by simp at hc1; exact hc1⟩

lemma scoreOK_initState (h0 dur : ℤ) (θ : ℚ) (strict blind : Bool) :
    scoreOK (initState h0 dur θ strict blind) := by
  have hhs : (initState h0 dur θ strict blind).highScore =
      if h0 < 0 then 0 else h0 := by
    unfold initState
    rw [timerFx_highScore, hexSyncFx_highScore, highScoreFx_highScore]
    simp [rawInit]
  have hsc : (initState h0 dur θ strict blind).score = 0 := rfl
  refine ⟨?_, ?_, ?_⟩
  · rw [hsc]
  · rw [hhs]
    split_ifs <;> omega
  · left
    rw [hsc, hhs]
    split_ifs <;> omega

/-- Every reachable state satisfies the high-score invariant. -/
theorem scoreOK_of_reachable {h0 dur : ℤ} {θ : ℚ} {strict blind : Bool} {s : GState}
    (h : Reachable h0 dur θ strict blind s) : scoreOK s := by
  induction h with
  | init => exact scoreOK_initState h0 dur θ strict blind
  | start hprev hne ih => exact scoreOK_start _ ih
  | submit hprev hp ih => exact scoreOK_submit ih
  | roundReset hprev ih => exact scoreOK_step_untouched rfl rfl rfl rfl ih
  | tick hprev h1 h2 h3 ih =>
    refine scoreOK_step_untouched ?_ ?_ ?_ ?_ ih <;>
      (simp only [handle]; split_ifs <;> rfl)
  | blurWindow hprev ih => exact scoreOK_blur ih
  | sliderChange hprev hp hv1 hv2 ih => exact scoreOK_step_untouched rfl rfl rfl rfl ih
  | hexChange hprev hp hed ih =>
    refine scoreOK_step_untouched ?_ ?_ ?_ ?_ ih <;>
      (simp only [handle]; rcases hexToRgb _ with - | c <;> rfl)
  | hexFocus hprev ih => exact scoreOK_step_untouched rfl rfl rfl rfl ih
  | hexBlur hprev ih => exact scoreOK_step_untouched rfl rfl rfl rfl ih
  | endGame hprev hp ih =>
    refine scoreOK_step_untouched ?_ ?_ ?_ ?_ ih <;>
      (simp only [handle]; split_ifs <;> rfl)
  | setStrict hprev ih => exact scoreOK_setStrict _ ih
  | setBlind hprev ih => exact scoreOK_step_untouched rfl rfl rfl rfl ih
  | setTimer hprev ih =>
    refine scoreOK_step_untouched ?_ ?_ ?_ ?_ ih <;>
      (simp only [handle]; split_ifs <;> rfl)


/-! ## History bookkeeping -/

/-- Is this event a `startGame` click? -/
def Event.isStart : Event → Bool
  | .start _ => true
  | _ => false

/-- Number of submit events in a trace that arrive while the game is
PLAYING. -/
def playingSubmits : GState → List Event → ℕ
  | _, [] => 0
  | s, e :: es =>
    (if e = .submit ∧ s.gameState = .PLAYING then 1 else 0) + playingSubmits (step s e) es

lemma step_history_length {s : GState} {e : Event} (hns : e.isStart = false) :
    (step s e).history.length =
    s.history.length + (if e = .submit ∧ s.gameState = .PLAYING then 1 else 0) := by
  rw [step_history]
  cases e with
  | start c => exact absurd hns (by simp [Event.isStart])
  | submit =>
    by_cases hp : s.gameState = .PLAYING
    · rcases hsu : succeeds s.scoreThreshold s.targetColor s.userColor with - | -
      · rw [handle_submit_failure hp hsu, if_pos ⟨rfl, hp⟩]
        simp
      · rw [handle_submit_success hp hsu, if_pos ⟨rfl, hp⟩]
        simp
    · rw [handle_submit_not_playing hp, if_neg (by simp [hp])]
      simp
  | roundReset c =>
    rw [if_neg (by simp)]
    simp [handle, startNewRound]
  | tick =>
    rw [if_neg (by simp)]
    simp only [handle]
    split_ifs <;> simp
  | blurWindow =>
    rw [if_neg (by simp)]
    simp only [handle]
    split_ifs <;> simp
  | sliderChange ch v =>
    rw [if_neg (by simp)]
    simp [handle]
  | hexChange val =>
    rw [if_neg (by simp)]
    simp only [handle]
    rcases hexToRgb val with - | c <;> simp
  | hexFocus =>
    rw [if_neg (by simp)]
    simp [handle]
  | hexBlur =>
    rw [if_neg (by simp)]
    simp [handle]
  | endGame =>
    rw [if_neg (by simp)]
    simp only [handle]
    split_ifs <;> simp
  | setStrict b =>
    rw [if_neg (by simp)]
    simp [handle]
  | setBlind b =>
    rw [if_neg (by simp)]
    simp [handle]
  | setTimer v =>
    rw [if_neg (by simp)]
    simp only [handle]
    split_ifs <;> simp

/-- In a trace with no intervening start, history grows by exactly the number
of PLAYING-state submits. -/
lemma history_length_runEvents {es : List Event} :
    ∀ {s : GState}, (∀ e ∈ es, e.isStart = false) →
    (runEvents s es).history.length = s.history.length + playingSubmits s es := by
  induction es with
  | nil =>
    intro s h
    simp [runEvents, playingSubmits]
  | cons e es ih =>
    intro s h
    have h1 : e.isStart = false := h e (List.mem_cons_self e es)
    have h2 : ∀ e' ∈ es, e'.isStart = false := fun e' he' => h e' (List.mem_cons_of_mem e he')
    show (runEvents (step s e) es).history.length = _
    rw [ih h2, step_history_length h1, playingSubmits]
    omega


/-! ## Auxiliary step facts for the timer claims -/

lemma step_tick_noop {s : GState} (h : ¬ 0 < s.timerDuration) : step s .tick = s := by
  have he : handle s .tick = s := by
    simp only [handle]
    rw [if_neg (by simp [h])]
  unfold step
  rw [he]
  simp [show callsSetUserColor Event.tick = false from rfl]

/-! ## The claims -/

/-- A playing state used to witness the submit-scoring claim. -/
def claim1WitnessState : GState :=
  { gameState := .PLAYING, score := 5, highScore := 7, strictMode := true,
    blindMode := false, scoreThreshold := 90, timerDuration := 30, timeLeft := 17,
    targetColor := ⟨200, 100, 50⟩, userColor := ⟨200, 100, 50⟩,
    hexInputValue := "#C86432", isEditingHex := false, isResetting := false,
    history := [], hasLostFocus := false, lastShown := false }

/-- Claim C1: for every submit performed while PLAYING, if
`similarity(target, user) > scoreThreshold/100` then the score is incremented
by exactly 1 and `timeLeft` is reset to `timerDuration`; otherwise both score
and `timeLeft` are unchanged. -/
theorem claim1_submit_scoring (s : GState) (hp : s.gameState = .PLAYING)
    (hθ : 0 ≤ s.scoreThreshold) :
    (((s.scoreThreshold : ℚ) : ℝ) / 100 < similarity s.targetColor s.userColor →
      (step s .submit).score = s.score + 1 ∧ (step s .submit).timeLeft = s.timerDuration) ∧
    (similarity s.targetColor s.userColor ≤ ((s.scoreThreshold : ℚ) : ℝ) / 100 →
      (step s .submit).score = s.score ∧ (step s .submit).timeLeft = s.timeLeft) := by
  constructor
  · intro hsim
    have hsu : succeeds s.scoreThreshold s.targetColor s.userColor = true :=
      (succeeds_iff_similarity _ _ _ hθ).mpr hsim
    rw [step_score, step_timeLeft, handle_submit_success hp hsu]
    exact ⟨rfl, rfl⟩
  · intro hsim
    have hsu : succeeds s.scoreThreshold s.targetColor s.userColor = false := by
      rcases hb : succeeds s.scoreThreshold s.targetColor s.userColor with - | -
      · rfl
      · have := (succeeds_iff_similarity _ _ _ hθ).mp hb
        linarith
    rw [step_score, step_timeLeft, handle_submit_failure hp hsu]
    exact ⟨rfl, rfl⟩

theorem claim1_submit_scoring_witness :
    (step claim1WitnessState .submit).score = 5 + 1 ∧
    (step claim1WitnessState .submit).timeLeft = 30 := by
  have h := claim1_submit_scoring claim1WitnessState rfl (by norm_num [claim1WitnessState])
  refine h.1 ?_
  have hd : dist2 claim1WitnessState.targetColor claim1WitnessState.userColor = 0 := by
    norm_num [dist2, claim1WitnessState]
  unfold similarity
  rw [hd]
  rw [show (((0:ℤ)):ℝ) = 0 from by norm_num, Real.sqrt_zero, zero_div, sub_zero]
  rw [show ((claim1WitnessState.scoreThreshold : ℚ) : ℝ) = 90 from by
    norm_num [claim1WitnessState]]
  norm_num

/-- Claim C2: after every step of a reachable execution, `highScore ≥ score`
holds unless strict mode is on and focus was lost during the current PLAYING
session (the strict-mode suppression case). -/
theorem claim2_highscore_invariant {h0 dur : ℤ} {θ : ℚ} {strict blind : Bool}
    {s : GState} (h : Reachable h0 dur θ strict blind s) :
    s.score ≤ s.highScore ∨ (s.strictMode = true ∧ s.hasLostFocus = true) :=
  (scoreOK_of_reachable h).2.2

theorem claim2_highscore_invariant_witness :
    (initState 0 30 90 true false).score ≤ (initState 0 30 90 true false).highScore ∨
    ((initState 0 30 90 true false).strictMode = true ∧
      (initState 0 30 90 true false).hasLostFocus = true) :=
  claim2_highscore_invariant Reachable.init

/-- Claim C3 (counterexample): the string `1g2h3i` contains non-hex
characters (so the claimed characterization says invalid), yet `hexToRgb`
accepts it as the color (1, 2, 3) because JS `parseInt` only needs a
parseable prefix. -/
theorem claim3_counterexample :
    specHexValid "1g2h3i" = false ∧ hexToRgb "1g2h3i" = some ⟨1, 2, 3⟩ := by
  constructor
  · decide
  · decide

/-- Claim C3 (amended): a cleaned input of exactly 6 or exactly 3 hex digits
is always accepted, and any cleaned length other than 6 or 3 is rejected;
(hex-digit purity is sufficient but, per the counterexample, not necessary). -/
theorem claim3_amended (s : String) :
    (specHexValid s = true → (hexToRgb s).isSome = true) ∧
    ((cleanHexOf s.data).length ≠ 6 → (cleanHexOf s.data).length ≠ 3 →
      hexToRgb s = none) :=
  ⟨fun h => hexToRgb_isSome_of_specHexValid h,
   fun h6 h3 => hexToRgb_none_of_bad_length h6 h3⟩

theorem claim3_amended_witness :
    (hexToRgb "f0a").isSome = true ∧ hexToRgb "abcd" = none :=
  ⟨(claim3_amended "f0a").1 (by decide), (claim3_amended "abcd").2 (by decide) (by decide)⟩

/-- The state reached from a fresh mount by pressing start: the hex mirror
holds the placeholder `#`, which does not parse. -/
def claim4CexState : GState := step (initState 0 30 90 true false) (.start ⟨120, 80, 40⟩)

/-- Claim C4 (counterexample): right after `start` (a reachable state with
`isEditingHex = false`), `hexInputValue` is the placeholder `#`, which does
not parse to `userColor` — the reset deliberately suppresses the mirror sync,
so the two representations disagree outside editing. -/
theorem claim4_counterexample :
    Reachable 0 30 90 true false claim4CexState ∧
    claim4CexState.isEditingHex = false ∧
    hexToRgb claim4CexState.hexInputValue = none ∧
    claim4CexState.userColor = ⟨0, 0, 0⟩ := by
  refine ⟨Reachable.start Reachable.init (by decide), by decide, by decide, by decide⟩

/-- Claim C4 (amended): in every reachable state with `isEditingHex = false`,
either the hex mirror parses to exactly `userColor`, or the state is freshly
reset: the mirror is the placeholder `#` and the user color is black. -/
theorem claim4_amended {h0 dur : ℤ} {θ : ℚ} {strict blind : Bool} {s : GState}
    (h : Reachable h0 dur θ strict blind s) (hed : s.isEditingHex = false) :
    hexToRgb s.hexInputValue = some s.userColor ∨
    (s.hexInputValue = "#" ∧ s.userColor = ⟨0, 0, 0⟩) :=
  (mirrorOK_of_reachable h).2.2 hed

theorem claim4_amended_witness :
    hexToRgb (initState 0 30 90 true false).hexInputValue =
      some (initState 0 30 90 true false).userColor ∨
    ((initState 0 30 90 true false).hexInputValue = "#" ∧
      (initState 0 30 90 true false).userColor = ⟨0, 0, 0⟩) :=
  claim4_amended Reachable.init (by decide)

/-- All three channels within the slider range. -/
def colorIn255 (c : Color) : Prop :=
  0 ≤ c.r ∧ c.r ≤ 255 ∧ 0 ≤ c.g ∧ c.g ≤ 255 ∧ 0 ≤ c.b ∧ c.b ≤ 255

/-- A playing state used by the slider claim. -/
def claim5State : GState :=
  { gameState := .PLAYING, score := 0, highScore := 0, strictMode := true,
    blindMode := false, scoreThreshold := 90, timerDuration := 30, timeLeft := 30,
    targetColor := ⟨10, 20, 30⟩, userColor := ⟨0, 0, 0⟩, hexInputValue := "#000000",
    isEditingHex := false, isResetting := false, history := [],
    hasLostFocus := false, lastShown := false }

/-- Claim C5 (counterexample): `handleSliderChange` performs no clamping — an
incoming value of 300 is stored verbatim, leaving a channel outside
`[0, 255]`.  (The `[0, 255]` bound is enforced only by the range input.) -/
theorem claim5_counterexample :
    (step claim5State (.sliderChange .r 300)).userColor.r = 300 ∧
    ¬ ((step claim5State (.sliderChange .r 300)).userColor.r ≤ 255) := by
  constructor
  · decide
  · decide

/-- Claim C5 (amended): `handleSliderChange` stores the incoming value
verbatim (no clamping); since the range input only emits values in
`[0, 255]`, a channel update with an in-range value keeps every channel of
`userColor` in `[0, 255]`. -/
theorem claim5_amended (s : GState) (ch : Channel) (v : ℤ)
    (h1 : 0 ≤ v) (h2 : v ≤ 255) (hok : colorIn255 s.userColor) :
    (step s (.sliderChange ch v)).userColor = setChannel s.userColor ch v ∧
    colorIn255 (step s (.sliderChange ch v)).userColor := by
  have hu : (step s (.sliderChange ch v)).userColor = setChannel s.userColor ch v := by
    rw [step_userColor]
    rfl
  refine ⟨hu, ?_⟩
  rw [hu]
  obtain ⟨a1, a2, a3, a4, a5, a6⟩ := hok
  cases ch with
  | r => exact ⟨h1, h2, a3, a4, a5, a6⟩
  | g => exact ⟨a1, a2, h1, h2, a5, a6⟩
  | b => exact ⟨a1, a2, a3, a4, h1, h2⟩

theorem claim5_amended_witness :
    (step claim5State (.sliderChange .g 128)).userColor =
      setChannel claim5State.userColor .g 128 ∧
    colorIn255 (step claim5State (.sliderChange .g 128)).userColor :=
  claim5_amended claim5State .g 128 (by norm_num) (by norm_num)
    (by refine ⟨?_, ?_, ?_, ?_, ?_, ?_⟩ <;> decide)

/-- A menu state used by the history claim. -/
def claim6State : GState :=
  { gameState := .MENU, score := 0, highScore := 0, strictMode := true,
    blindMode := false, scoreThreshold := 90, timerDuration := 30, timeLeft := 30,
    targetColor := ⟨0, 0, 0⟩, userColor := ⟨0, 0, 0⟩, hexInputValue := "#",
    isEditingHex := false, isResetting := false, history := [],
    hasLostFocus := false, lastShown := false }

/-- Claim C6: from a `start` on, for any following trace without another
start, `history.length` equals the number of submits that arrived while
PLAYING — each such submit appends exactly one record, success or failure. -/
theorem claim6_history_counts (s : GState) (c : Color) (es : List Event)
    (h : ∀ e ∈ es, e.isStart = false) :
    (runEvents (step s (.start c)) es).history.length =
    playingSubmits (step s (.start c)) es := by
  rw [history_length_runEvents h]
  have he : (step s (.start c)).history = [] := by
    rw [step_history]
    rfl
  rw [he]
  simp

theorem claim6_history_counts_witness :
    (runEvents (step claim6State (.start ⟨9, 9, 9⟩)) [.submit, .blurWindow, .submit]).history.length =
    playingSubmits (step claim6State (.start ⟨9, 9, 9⟩)) [.submit, .blurWindow, .submit] :=
  claim6_history_counts claim6State ⟨9, 9, 9⟩ [.submit, .blurWindow, .submit] (by decide)

/-- Claim C7: for a valid color (all channels in `[0, 255]`), `toHex` yields a
7-character `#RRGGBB` string — leading `#`, six uppercase zero-padded hex
digits — and `fromHex` maps it back to exactly the original color. -/
theorem claim7_roundtrip (c : Color) (h1 : 0 ≤ c.r) (h2 : c.r ≤ 255)
    (h3 : 0 ≤ c.g) (h4 : c.g ≤ 255) (h5 : 0 ≤ c.b) (h6 : c.b ≤ 255) :
    (rgbToHex c.r c.g c.b).length = 7 ∧
    (rgbToHex c.r c.g c.b).data.head? = some '#' ∧
    (∀ ch ∈ (rgbToHex c.r c.g c.b).data.tail, isUpperHexDigit ch = true) ∧
    hexToRgb (rgbToHex c.r c.g c.b) = some c := by
  obtain ⟨hrt, hlen⟩ := hexToRgb_rgbToHex c.r c.g c.b (by omega) h2 (by omega) h4 (by omega) h6
  refine ⟨hlen, ?_, ?_, hrt⟩
  · show (rgbToHexL c.r c.g c.b).head? = some '#'
    rw [rgbToHexL_eq]
    rfl
  · intro ch hch
    have hch' : ch ∈ chanChars c.r ++ chanChars c.g ++ chanChars c.b := by
      have e : (rgbToHex c.r c.g c.b).data.tail
          = chanChars c.r ++ chanChars c.g ++ chanChars c.b := by
        show (rgbToHexL c.r c.g c.b).tail = _
        rw [rgbToHexL_eq]
        rfl
      rwa [e] at hch
    obtain ⟨-, -, -, hu1⟩ := chanChars_spec c.r (by omega) h2
    obtain ⟨-, -, -, hu2⟩ := chanChars_spec c.g (by omega) h4
    obtain ⟨-, -, -, hu3⟩ := chanChars_spec c.b (by omega) h6
    have u1 := hu1 h1
    have u2 := hu2 h3
    have u3 := hu3 h5
    simp only [List.all_eq_true] at u1 u2 u3
    rcases List.mem_append.mp hch' with hm | hm
    · rcases List.mem_append.mp hm with hm' | hm'
      · exact u1 ch hm'
      · exact u2 ch hm'
    · exact u3 ch hm

theorem claim7_roundtrip_witness :
    (rgbToHex 200 100 50).length = 7 ∧
    (rgbToHex 200 100 50).data.head? = some '#' ∧
    (∀ ch ∈ (rgbToHex 200 100 50).data.tail, isUpperHexDigit ch = true) ∧
    hexToRgb (rgbToHex 200 100 50) = some ⟨200, 100, 50⟩ :=
  claim7_roundtrip ⟨200, 100, 50⟩ (by norm_num) (by norm_num) (by norm_num)
    (by norm_num) (by norm_num) (by norm_num)

/-- Claim C8: evaluating the persistence initializers at the stored string
abc — the `high_score` initializer has no `isNaN` guard and produces `NaN`
(modelled as `none`) instead of the documented default 0, while the sibling
`timer_duration` initializer correctly falls back to its default. -/
theorem claim8_highscore_init_nan :
    highScoreInit (some "abc") = none ∧ timerDurationInit (some "abc") = 30 := by
  constructor
  · decide
  · decide

/-- Claim C9: with `timerDuration = 0`, timer ticks change nothing — in
particular no PLAYING → GAME_OVER transition by time expiry ever occurs, for
any number of ticks; and a tick can only end the game when
`timerDuration > 0`. -/
theorem claim9_no_expiry_without_timer :
    (∀ (s : GState) (n : ℕ), s.timerDuration = 0 →
      runEvents s (List.replicate n .tick) = s) ∧
    (∀ s : GState, (step s .tick).gameState = .GAME_OVER →
      s.gameState = .GAME_OVER ∨ 0 < s.timerDuration) := by
  constructor
  · intro s n h
    induction n with
    | zero => rfl
    | succ n ih =>
      show runEvents (step s .tick) (List.replicate n .tick) = s
      rw [step_tick_noop (by omega)]
      exact ih
  · intro s hGO
    by_cases hd : 0 < s.timerDuration
    · right
      exact hd
    · left
      rw [step_tick_noop hd] at hGO
      exact hGO

/-- A tick-free state for the C9 witness. -/
def claim9State : GState :=
  { claim6State with timerDuration := 0, timeLeft := 0, gameState := .PLAYING }

theorem claim9_no_expiry_without_timer_witness :
    runEvents claim9State (List.replicate 3 .tick) = claim9State :=
  claim9_no_expiry_without_timer.1 claim9State 3 rfl

/-- A suppressed-high-score state for the C10 claim. -/
def claim10State : GState :=
  { claim6State with
      gameState := .PLAYING, score := 7, highScore := 3,
      strictMode := true, hasLostFocus := true }

/-- Claim C10: the strict-mode suppression is re-evaluated when strict mode
changes — toggling strict mode off while `score > highScore` (after a focus
loss) immediately commits the higher score to `highScore`, with no new
`start()` required. -/
theorem claim10_strict_toggle_commits (s : GState) (hst : s.strictMode = true)
    (_hlf : s.hasLostFocus = true) (hgt : s.highScore < s.score) :
    (step s (.setStrict false)).highScore = s.score := by
  have hcond : (handle s (.setStrict false)).score ≠ s.score ∨
      (handle s (.setStrict false)).highScore ≠ s.highScore ∨
      (handle s (.setStrict false)).hasLostFocus ≠ s.hasLostFocus ∨
      (handle s (.setStrict false)).strictMode ≠ s.strictMode := by
    right; right; right
    show (false : Bool) ≠ s.strictMode
    rw [hst]
    simp
  rw [step_highScore, if_pos hcond, highScoreFx_highScore]
  rw [if_pos ⟨hgt, Or.inr rfl⟩]
  rfl

theorem claim10_strict_toggle_commits_witness :
    (step claim10State (.setStrict false)).highScore = 7 :=
  claim10_strict_toggle_commits claim10State (by decide) (by decide) (by decide)

end Chroma
